import Mathlib

/-!
Verification of the Late Show API (models.py / routes.py).

The embedding models the relational store as lists of rows, JSON responses
as an inductive `Json` value, and each route handler as a function from the
store (the database session's committed state) to a store/response pair.
Machine integers of the source are modelled as `Int` (SQLite INTEGER).
-/

namespace LateShow

/-- JSON values, the shape of every response body produced by `jsonify`. -/
inductive Json where
  | null : Json
  | int (n : Int) : Json
  | str (s : String) : Json
  | arr (elems : List Json) : Json
  | obj (fields : List (String × Json)) : Json

/-- Field access on a JSON object: the value stored under key `k`, if any.
Used to state which keys appear in a serialized entity. -/
def Json.getField : Json → String → Option Json
  | Json.obj fs, k => (fs.find? (fun p => p.1 == k)).map (fun p => p.2)
  | _, _ => none

/-- Row of the `episodes` table (models.py, class Episode):
`id` primary key, `date` a display string, `number` the show sequence. -/
structure Episode where
  id : Int
  date : String
  number : Int
  deriving DecidableEq

/-- Row of the `guests` table (models.py, class Guest). -/
structure Guest where
  id : Int
  name : String
  occupation : String
  deriving DecidableEq

/-- Row of the `appearances` table (models.py, class Appearance): the join
entity carrying `rating` and the two foreign keys. -/
structure Appearance where
  id : Int
  rating : Int
  guest_id : Int
  episode_id : Int
  deriving DecidableEq

/-- The committed database state: the three tables, each a list of rows in
insertion order. -/
structure Store where
  episodes : List Episode
  guests : List Guest
  appearances : List Appearance
  deriving DecidableEq

/-- `Episode.query.get(i)`: primary-key lookup in the episodes table. -/
def Store.getEpisode (s : Store) (i : Int) : Option Episode :=
  s.episodes.find? (fun e => e.id == i)

/-- `Guest.query.get(i)`: primary-key lookup in the guests table. -/
def Store.getGuest (s : Store) (i : Int) : Option Guest :=
  s.guests.find? (fun g => g.id == i)

/-- `episode.appearances.all()`: the rows whose foreign key references the
episode (the dynamic relationship in models.py). -/
def Store.episodeAppearances (s : Store) (e : Episode) : List Appearance :=
  s.appearances.filter (fun a => a.episode_id == e.id)

/-- Autoincrement primary key assigned by the engine on insert: one more
than the largest id in the table. -/
def Store.nextAppearanceId (s : Store) : Int :=
  (s.appearances.foldr (fun a m => max a.id m) 0) + 1

/-- models.py `Appearance.validate_rating` (the `@validates` hook): rejects
a rating outside `[1, 5]` with a `ValueError`, returns the value otherwise. -/
def Appearance.validate_rating (rating : Int) : Except String Int :=
  if rating < 1 || rating > 5 then
    Except.error "Rating must be between 1 and 5 (inclusive)"
  else
    Except.ok rating

/-- Constructing an `Appearance(rating=..., ...)`: SQLAlchemy runs the
`@validates` hook at assignment time, so construction fails immediately on
a bad rating, before anything reaches the session. -/
def Appearance.mk_validated (id rating guest_id episode_id : Int) :
    Except String Appearance :=
  match Appearance.validate_rating rating with
  | Except.error msg => Except.error msg
  | Except.ok r =>
      Except.ok { id := id, rating := r, guest_id := guest_id, episode_id := episode_id }

/-- The base key/value pairs of `Episode.to_dict` (always present). -/
def Episode.base_fields (e : Episode) : List (String × Json) :=
  [("id", Json.int e.id), ("date", Json.str e.date), ("number", Json.int e.number)]

/-- `Episode.to_dict(include_appearances=False)`: the shallow dictionary. -/
def Episode.to_dict_shallow (e : Episode) : Json :=
  Json.obj e.base_fields

/-- The base key/value pairs of `Guest.to_dict` (always present). -/
def Guest.base_fields (g : Guest) : List (String × Json) :=
  [("id", Json.int g.id), ("name", Json.str g.name), ("occupation", Json.str g.occupation)]

/-- `Guest.to_dict(include_appearances=False)`: the shallow dictionary. -/
def Guest.to_dict_shallow (g : Guest) : Json :=
  Json.obj g.base_fields

/-- models.py `Appearance.to_dict(include_guest, include_episode)`: the four
base fields, then optionally the related guest and episode, each serialized
with its default `to_dict()` call, i.e. without nested appearances.  The
source resolves `self.guest` / `self.episode` through the relationship; a
dangling foreign key (impossible under the FK constraints) would be `None`,
modelled here as `Json.null`. -/
def Appearance.to_dict (s : Store) (a : Appearance)
    (include_guest include_episode : Bool) : Json :=
  Json.obj
    ([("id", Json.int a.id), ("rating", Json.int a.rating),
      ("guest_id", Json.int a.guest_id), ("episode_id", Json.int a.episode_id)]
     ++ (if include_guest then
           [("guest", match s.getGuest a.guest_id with
                      | some g => g.to_dict_shallow
                      | none => Json.null)]
         else [])
     ++ (if include_episode then
           [("episode", match s.getEpisode a.episode_id with
                        | some e => e.to_dict_shallow
                        | none => Json.null)]
         else []))

/-- models.py `Episode.to_dict(include_appearances)`: base fields, plus,
when requested, the `appearances` array where each appearance is serialized
with `include_guest=True, include_episode=False`. -/
def Episode.to_dict (s : Store) (e : Episode) (include_appearances : Bool) : Json :=
  if include_appearances then
    Json.obj (e.base_fields ++
      [("appearances",
        Json.arr ((s.episodeAppearances e).map (fun a => a.to_dict s true false)))])
  else
    e.to_dict_shallow

/-- models.py `Guest.to_dict(include_appearances)`: base fields, plus, when
requested, the appearances serialized with `include_guest=False,
include_episode=True` (the nested episode itself stays shallow). -/
def Guest.to_dict (s : Store) (g : Guest) (include_appearances : Bool) : Json :=
  if include_appearances then
    Json.obj (g.base_fields ++
      [("appearances",
        Json.arr ((s.appearances.filter (fun a => a.guest_id == g.id)).map
          (fun a => a.to_dict s false true)))])
  else
    g.to_dict_shallow

/-- An HTTP response: status code and JSON body. -/
structure Response where
  status : Nat
  body : Json

/-- routes.py `get_episodes`: all episodes ordered by `number`, serialized
without nested appearances, status 200.  The handler performs only a query,
so the store component is returned unchanged. -/
def get_episodes (s : Store) : Store × Response :=
  let episodes := List.insertionSort (fun a b => a.number ≤ b.number) s.episodes
  (s, ⟨200, Json.arr (episodes.map (fun e => e.to_dict s false))⟩)

/-- routes.py `get_episode`: primary-key fetch; 404 with an error body when
absent, otherwise 200 with the episode serialized with its appearances. -/
def get_episode (s : Store) (episode_id : Int) : Store × Response :=
  match s.getEpisode episode_id with
  | none => (s, ⟨404, Json.obj [("error", Json.str "Episode not found")]⟩)
  | some e => (s, ⟨200, e.to_dict s true⟩)

/-- routes.py `get_guests`: all guests ordered by `name`, serialized without
nested appearances, status 200. -/
def get_guests (s : Store) : Store × Response :=
  let guests := List.insertionSort (fun a b => a.name ≤ b.name) s.guests
  (s, ⟨200, Json.arr (guests.map (fun g => g.to_dict s false))⟩)

/-- A parsed JSON scalar as delivered by `request.get_json()` for the
`rating` field: either an integer or some other value (modelled by its
string form), so that the `isinstance(rating, int)` check is expressible. -/
inductive PyVal where
  | int (n : Int) : PyVal
  | str (s : String) : PyVal
  deriving DecidableEq

/-- `isinstance(v, int)` on the modelled scalars. -/
def PyVal.isInt : PyVal → Bool
  | PyVal.int _ => true
  | PyVal.str _ => false

/-- The parsed request body of `POST /appearances`.  `data.get(k)` yields
`None` for a missing key, modelled by `Option`.  The id fields are used as
primary-key lookups, so they are modelled as optional integers. -/
structure ReqBody where
  rating : Option PyVal
  episode_id : Option Int
  guest_id : Option Int
  deriving DecidableEq

/-- The rating checks of `create_appearance` (routes.py): `None` means
required; a non-integer means a type error; an integer outside `[1, 5]`
means a range error; the three branches are an if/elif/elif chain, so at
most one message is produced. -/
def ratingErrors : Option PyVal → List String
  | none => ["Rating is required"]
  | some (PyVal.str _) => ["Rating must be an integer"]
  | some (PyVal.int n) =>
      if n < 1 || n > 5 then ["Rating must be between 1 and 5 (inclusive)"] else []

/-- The episode checks of `create_appearance`: `None` means required,
otherwise a primary-key lookup whose miss is reported. -/
def episodeErrors (s : Store) : Option Int → List String
  | none => ["Episode ID is required"]
  | some i => match s.getEpisode i with
              | none => ["Episode not found"]
              | some _ => []

/-- The guest checks of `create_appearance`, symmetric to the episode ones. -/
def guestErrors (s : Store) : Option Int → List String
  | none => ["Guest ID is required"]
  | some i => match s.getGuest i with
              | none => ["Guest not found"]
              | some _ => []

/-- The full `errors` list accumulated by `create_appearance` before the
`if errors:` check, in source order: rating, then episode, then guest. -/
def validationErrors (s : Store) (d : ReqBody) : List String :=
  ratingErrors d.rating ++ episodeErrors s d.episode_id ++ guestErrors s d.guest_id

/-- Outcome of running a handler body: a response together with the store
left behind, or an exception escaping the handler (to the 500 handler). -/
inductive HResult where
  | ok (store : Store) (resp : Response) : HResult
  | fault (msg : String) : HResult

/-- routes.py `create_appearance`.  `request.get_json()` may deliver `None`
(e.g. a body that is JSON `null`); the source then raises on
`data.get(...)` before any validation, modelled as a fault.  Otherwise all
validation errors are collected; a non-empty list yields a 400 with every
message and no write.  On success the `Appearance(...)` constructor runs the
rating validator (a `ValueError` would escape as a fault), the row is added
and committed, and the 201 body nests both related entities.  The final
match arm is unreachable when the error list is empty, since an empty list
forces an integer rating and present ids. -/
def create_appearance (s : Store) (data : Option ReqBody) : HResult :=
  match data with
  | none => HResult.fault "AttributeError: NoneType has no attribute get"
  | some d =>
    let errors := validationErrors s d
    if errors ≠ [] then
      HResult.ok s ⟨400, Json.obj [("errors", Json.arr (errors.map Json.str))]⟩
    else
      match d.rating, d.episode_id, d.guest_id with
      | some (PyVal.int n), some ei, some gi =>
        match Appearance.mk_validated s.nextAppearanceId n gi ei with
        | Except.error msg => HResult.fault msg
        | Except.ok a =>
          let s1 : Store := { s with appearances := s.appearances ++ [a] }
          HResult.ok s1 ⟨201, a.to_dict s1 true true⟩
      | _, _, _ => HResult.fault "unreachable: empty error list forces these fields"

/-- routes.py `not_found` (the registered 404 errorhandler). -/
def not_found : Response :=
  ⟨404, Json.obj [("error", Json.str "Resource not found")]⟩

/-- The database session as seen by the 500 errorhandler: the committed
state plus the rows added but not yet committed in the current request. -/
structure Session where
  committed : Store
  pending : List Appearance
  deriving DecidableEq

/-- `db.session.rollback()`: discard all pending, uncommitted changes. -/
def Session.rollback (ss : Session) : Session :=
  { ss with pending := [] }

/-- routes.py `internal_error` (the registered 500 errorhandler): roll the
session back, then answer 500 with a generic body. -/
def internal_error (ss : Session) : Session × Response :=
  (ss.rollback, ⟨500, Json.obj [("error", Json.str "Internal server error")]⟩)

/-- A dispatched request: one of the four defined routes, or any
method/path matching none of them. -/
inductive Request where
  | getEpisodes : Request
  | getEpisode (episode_id : Int) : Request
  | getGuests : Request
  | postAppearances (data : Option ReqBody) : Request
  | unmatched : Request

/-- Modelled from the spec: the framework routing/dispatch machinery is not
part of this repository's sources; per the spec an unmatched path is
answered by the registered 404 errorhandler, and an exception escaping a
handler reaches the registered 500 errorhandler.  Both fault sites of
`create_appearance` occur before `db.session.add`, so the session the 500
handler rolls back has no pending rows and the committed store survives. -/
def app_respond (s : Store) : Request → Store × Response
  | Request.getEpisodes => get_episodes s
  | Request.getEpisode i => get_episode s i
  | Request.getGuests => get_guests s
  | Request.postAppearances d =>
    match create_appearance s d with
    | HResult.ok s1 r => (s1, r)
    | HResult.fault _ =>
      let h := internal_error { committed := s, pending := [] }
      (h.1.committed, h.2)
  | Request.unmatched => (s, not_found)

/-- Every stored appearance has a rating within the documented bounds. -/
def Store.ratingsValid (s : Store) : Prop :=
  ∀ a ∈ s.appearances, 1 ≤ a.rating ∧ a.rating ≤ 5

/-- The first three seeded episodes (seed.py). -/
def sampleEpisodes : List Episode :=
  [⟨1, "1/11/99", 1⟩, ⟨2, "1/12/99", 2⟩, ⟨3, "1/13/99", 3⟩]

/-- The first three seeded guests (seed.py). -/
def sampleGuests : List Guest :=
  [⟨1, "Michael J. Fox", "actor"⟩, ⟨2, "Sandra Bernhard", "Comedian"⟩,
   ⟨3, "Tracey Ullman", "television actress"⟩]

/-- A concrete store with seeded rows, used to instantiate the theorems. -/
def sampleStore : Store :=
  ⟨sampleEpisodes, sampleGuests, [⟨1, 4, 1, 1⟩, ⟨2, 5, 2, 1⟩, ⟨3, 5, 3, 2⟩]⟩

/-- A store whose rows were inserted out of order, to instantiate the
ordering theorems. -/
def shuffledStore : Store :=
  ⟨[⟨3, "1/13/99", 3⟩, ⟨1, "1/11/99", 1⟩, ⟨2, "1/12/99", 2⟩],
   [⟨3, "Tracey Ullman", "television actress"⟩, ⟨1, "Michael J. Fox", "actor"⟩,
    ⟨2, "Sandra Bernhard", "Comedian"⟩], []⟩

/-- C5: GET /episodes answers 200 with every episode row exactly once
(a permutation of the table), sorted by ascending `number`, each element the
shallow dictionary `{id, date, number}` with no `appearances` key. -/
theorem get_episodes_lists_all_sorted (s : Store) :
    ∃ l : List Episode,
      get_episodes s = (s, ⟨200, Json.arr (l.map (fun e => e.to_dict s false))⟩) ∧
      l.Perm s.episodes ∧
      l.Sorted (fun a b => a.number ≤ b.number) ∧
      ∀ e ∈ l,
        e.to_dict s false =
          Json.obj [("id", Json.int e.id), ("date", Json.str e.date),
                    ("number", Json.int e.number)] ∧
        (e.to_dict s false).getField "appearances" = none := by
  refine ⟨List.insertionSort (fun a b => a.number ≤ b.number) s.episodes,
    rfl, List.perm_insertionSort _ _, ?_, ?_⟩
  · haveI : IsTotal Episode (fun a b => a.number ≤ b.number) :=
      ⟨fun a b => le_total a.number b.number⟩
    haveI : IsTrans Episode (fun a b => a.number ≤ b.number) :=
      ⟨fun _ _ _ hab hbc => le_trans hab hbc⟩
    exact List.sorted_insertionSort _ _
  · intro e _
    exact ⟨rfl, rfl⟩

/-- C6: GET /guests answers 200 with every guest row exactly once
(a permutation of the table), sorted by ascending `name`, each element the
shallow dictionary `{id, name, occupation}` with no `appearances` key. -/
theorem get_guests_lists_all_sorted (s : Store) :
    ∃ l : List Guest,
      get_guests s = (s, ⟨200, Json.arr (l.map (fun g => g.to_dict s false))⟩) ∧
      l.Perm s.guests ∧
      l.Sorted (fun a b => a.name ≤ b.name) ∧
      ∀ g ∈ l,
        g.to_dict s false =
          Json.obj [("id", Json.int g.id), ("name", Json.str g.name),
                    ("occupation", Json.str g.occupation)] ∧
        (g.to_dict s false).getField "appearances" = none := by
  refine ⟨List.insertionSort (fun a b => a.name ≤ b.name) s.guests,
    rfl, List.perm_insertionSort _ _, ?_, ?_⟩
  · haveI : IsTotal Guest (fun a b => a.name ≤ b.name) :=
      ⟨fun a b => le_total a.name b.name⟩
    haveI : IsTrans Guest (fun a b => a.name ≤ b.name) :=
      ⟨fun _ _ _ hab hbc => le_trans hab hbc⟩
    exact List.sorted_insertionSort _ _
  · intro g _
    exact ⟨rfl, rfl⟩

/-- C8: an unmatched route is answered by the 404 errorhandler with body
`{error: Resource not found}`; an unhandled fault is answered by the 500
errorhandler with body `{error: Internal server error}` after the session
has been rolled back (no pending change survives, the committed state is
kept). -/
theorem fallback_handlers_spec (s : Store) (ss : Session) (d : Option ReqBody) :
    app_respond s Request.unmatched = (s, not_found) ∧
    not_found = ⟨404, Json.obj [("error", Json.str "Resource not found")]⟩ ∧
    internal_error ss =
      ({ committed := ss.committed, pending := [] },
       ⟨500, Json.obj [("error", Json.str "Internal server error")]⟩) ∧
    (internal_error ss).1.pending = [] ∧
    (internal_error ss).1.committed = ss.committed ∧
    (∀ msg, create_appearance s d = HResult.fault msg →
      app_respond s (Request.postAppearances d) =
        (s, ⟨500, Json.obj [("error", Json.str "Internal server error")]⟩)) := by
  refine ⟨rfl, rfl, rfl, rfl, rfl, ?_⟩
  intro msg h
  simp [app_respond, h, internal_error, Session.rollback]

/-- Closed instance of the fallback-handler theorem: the unmatched route on
the seeded store, and a faulting POST (body parsed to `None`). -/
theorem fallback_handlers_spec_witness :
    app_respond sampleStore Request.unmatched = (sampleStore, not_found) ∧
    app_respond sampleStore (Request.postAppearances none) =
      (sampleStore, ⟨500, Json.obj [("error", Json.str "Internal server error")]⟩) :=
  ⟨(fallback_handlers_spec sampleStore ⟨sampleStore, []⟩ none).1,
   (fallback_handlers_spec sampleStore ⟨sampleStore, []⟩ none).2.2.2.2.2
     "AttributeError: NoneType has no attribute get" rfl⟩

/-- C9: when the parsed body is `None`, `create_appearance` raises on the
first field access before any validation: the request is an unhandled fault
(never a 400 error list), and the full pipeline answers 500 with the store
unchanged. -/
theorem create_appearance_none_body_faults (s : Store) :
    create_appearance s none =
      HResult.fault "AttributeError: NoneType has no attribute get" ∧
    app_respond s (Request.postAppearances none) =
      (s, ⟨500, Json.obj [("error", Json.str "Internal server error")]⟩) :=
  ⟨rfl, rfl⟩

/-- C10: the three read endpoints leave the store exactly as it was: for
every store and every id, the store component returned by `get_episodes`,
`get_episode` and `get_guests` equals the input store. -/
theorem read_endpoints_leave_store_unchanged (s : Store) (i : Int) :
    (get_episodes s).1 = s ∧ (get_episode s i).1 = s ∧ (get_guests s).1 = s := by
  refine ⟨rfl, ?_, rfl⟩
  cases h : s.getEpisode i <;> simp [get_episode, h]

/-- A validated rating is returned unchanged and lies within the bounds. -/
theorem validate_rating_ok_bounds {n r : Int}
    (h : Appearance.validate_rating n = Except.ok r) :
    r = n ∧ 1 ≤ n ∧ n ≤ 5 := by
  unfold Appearance.validate_rating at h
  by_cases hc : n < 1 || n > 5
  · rw [if_pos hc] at h
    cases h
  · rw [if_neg hc] at h
    injection h with h1
    simp only [Bool.or_eq_true, decide_eq_true_eq, not_or] at hc
    exact ⟨h1.symm, by omega, by omega⟩

/-- A rating within the bounds passes the `@validates` hook unchanged. -/
theorem validate_rating_of_bounds {n : Int} (h1 : 1 ≤ n) (h5 : n ≤ 5) :
    Appearance.validate_rating n = Except.ok n := by
  unfold Appearance.validate_rating
  rw [if_neg]
  simp only [Bool.or_eq_true, decide_eq_true_eq, not_or]
  omega

/-- A successfully constructed appearance carries exactly the given fields
and a rating within the bounds. -/
theorem mk_validated_ok {i n g e : Int} {a : Appearance}
    (h : Appearance.mk_validated i n g e = Except.ok a) :
    a = ⟨i, n, g, e⟩ ∧ 1 ≤ n ∧ n ≤ 5 := by
  unfold Appearance.mk_validated at h
  cases hv : Appearance.validate_rating n with
  | error msg => rw [hv] at h; cases h
  | ok r =>
    rw [hv] at h
    injection h with h1
    obtain ⟨hr, hl, hu⟩ := validate_rating_ok_bounds hv
    subst hr
    exact ⟨h1.symm, hl, hu⟩

/-- An empty rating error list forces an in-range integer rating. -/
theorem ratingErrors_nil {o : Option PyVal} (h : ratingErrors o = []) :
    ∃ n, o = some (PyVal.int n) ∧ 1 ≤ n ∧ n ≤ 5 := by
  cases o with
  | none => simp [ratingErrors] at h
  | some v =>
    cases v with
    | str t => simp [ratingErrors] at h
    | int n =>
      simp only [ratingErrors] at h
      by_cases hc : (n < 1 || n > 5) = true
      · rw [if_pos hc] at h
        simp at h
      · simp only [Bool.or_eq_true, decide_eq_true_eq, not_or] at hc
        exact ⟨n, rfl, by omega, by omega⟩

/-- An empty episode error list forces an id resolving to an existing row. -/
theorem episodeErrors_nil {s : Store} {o : Option Int}
    (h : episodeErrors s o = []) :
    ∃ i e, o = some i ∧ s.getEpisode i = some e := by
  cases o with
  | none => simp [episodeErrors] at h
  | some i =>
    simp only [episodeErrors] at h
    cases hfe : s.getEpisode i with
    | none => rw [hfe] at h; simp at h
    | some e => exact ⟨i, e, rfl, hfe⟩

/-- An empty guest error list forces an id resolving to an existing row. -/
theorem guestErrors_nil {s : Store} {o : Option Int}
    (h : guestErrors s o = []) :
    ∃ i g, o = some i ∧ s.getGuest i = some g := by
  cases o with
  | none => simp [guestErrors] at h
  | some i =>
    simp only [guestErrors] at h
    cases hfg : s.getGuest i with
    | none => rw [hfg] at h; simp at h
    | some g => exact ⟨i, g, rfl, hfg⟩

/-- When the accumulated error list is empty, every validated field has the
shape the construction step relies on: an in-range integer rating and two
ids resolving to existing rows. -/
theorem validationErrors_nil_shape (s : Store) (d : ReqBody)
    (he : validationErrors s d = []) :
    ∃ n ei gi e g,
      d.rating = some (PyVal.int n) ∧ 1 ≤ n ∧ n ≤ 5 ∧
      d.episode_id = some ei ∧ s.getEpisode ei = some e ∧
      d.guest_id = some gi ∧ s.getGuest gi = some g := by
  unfold validationErrors at he
  rw [List.append_eq_nil, List.append_eq_nil] at he
  obtain ⟨⟨hr, hep⟩, hgu⟩ := he
  obtain ⟨n, hdr, h1, h5⟩ := ratingErrors_nil hr
  obtain ⟨ei, e, hde, hfe⟩ := episodeErrors_nil hep
  obtain ⟨gi, g, hdg, hfg⟩ := guestErrors_nil hgu
  exact ⟨n, ei, gi, e, g, hdr, h1, h5, hde, hfe, hdg, hfg⟩

/-- A non-empty error list makes `create_appearance` answer 400 with every
collected message and leave the store untouched. -/
theorem create_appearance_of_errors (s : Store) (d : ReqBody)
    (he : validationErrors s d ≠ []) :
    create_appearance s (some d) =
      HResult.ok s
        ⟨400, Json.obj [("errors", Json.arr ((validationErrors s d).map Json.str))]⟩ := by
  simp only [create_appearance]
  rw [if_pos he]

/-- With every validation satisfied, `create_appearance` appends exactly one
row, with the autoincrement id and the given fields, and answers 201 with
that row serialized with both relations nested. -/
theorem create_appearance_of_valid (s : Store) (d : ReqBody)
    (n ei gi : Int) (e : Episode) (g : Guest)
    (hr : d.rating = some (PyVal.int n)) (h1 : 1 ≤ n) (h5 : n ≤ 5)
    (hei : d.episode_id = some ei) (hfe : s.getEpisode ei = some e)
    (hgi : d.guest_id = some gi) (hfg : s.getGuest gi = some g) :
    create_appearance s (some d) =
      HResult.ok
        { s with appearances := s.appearances ++ [⟨s.nextAppearanceId, n, gi, ei⟩] }
        ⟨201,
         Appearance.to_dict
           { s with appearances := s.appearances ++ [⟨s.nextAppearanceId, n, gi, ei⟩] }
           ⟨s.nextAppearanceId, n, gi, ei⟩ true true⟩ := by
  have hc : (n < 1 || n > 5) = false := by
    have ha : ¬ n < 1 := by omega
    have hb : ¬ n > 5 := by omega
    simp [ha, hb]
  have hnil : validationErrors s d = [] := by
    simp [validationErrors, ratingErrors, episodeErrors, guestErrors,
      hr, hei, hgi, hfe, hfg, hc]
  simp only [create_appearance]
  rw [if_neg (not_not_intro hnil)]
  rw [hr, hei, hgi]
  simp only [Appearance.mk_validated, validate_rating_of_bounds h1 h5]

/-- C4: GET /episodes/{id} answers 404 with `{error: Episode not found}`
when no row has the id; otherwise 200 with the episode serialized together
with an `appearances` array of exactly the rows referencing it, each entry
carrying its nested guest and no nested episode. -/
theorem get_episode_found_and_not_found (s : Store) (i : Int) :
    (s.getEpisode i = none →
      get_episode s i =
        (s, ⟨404, Json.obj [("error", Json.str "Episode not found")]⟩)) ∧
    (∀ e, s.getEpisode i = some e →
      get_episode s i = (s, ⟨200, e.to_dict s true⟩) ∧
      (e.to_dict s true).getField "appearances" =
        some (Json.arr ((s.episodeAppearances e).map (fun a => a.to_dict s true false))) ∧
      ((s.episodeAppearances e).map (fun a => a.to_dict s true false)).length =
        (s.appearances.filter (fun a => a.episode_id == e.id)).length ∧
      ∀ a ∈ s.episodeAppearances e,
        (a.to_dict s true false).getField "episode" = none ∧
        ∀ g, s.getGuest a.guest_id = some g →
          (a.to_dict s true false).getField "guest" = some g.to_dict_shallow) := by
  constructor
  · intro h
    simp [get_episode, h]
  · intro e he
    refine ⟨by simp [get_episode, he], rfl, ?_, ?_⟩
    · simp [Store.episodeAppearances]
    · intro a _
      refine ⟨rfl, ?_⟩
      intro g hg
      simp only [Appearance.to_dict, hg]
      rfl

/-- Closed instance of the single-episode theorem: id 999 is absent from
the seeded store, id 1 is present with its appearance rows. -/
theorem get_episode_found_and_not_found_witness :
    get_episode sampleStore 999 =
      (sampleStore, ⟨404, Json.obj [("error", Json.str "Episode not found")]⟩) ∧
    get_episode sampleStore 1 =
      (sampleStore, ⟨200, Episode.to_dict sampleStore ⟨1, "1/11/99", 1⟩ true⟩) ∧
    (Episode.to_dict sampleStore ⟨1, "1/11/99", 1⟩ true).getField "appearances" =
      some (Json.arr ((sampleStore.episodeAppearances ⟨1, "1/11/99", 1⟩).map
        (fun a => a.to_dict sampleStore true false))) :=
  ⟨(get_episode_found_and_not_found sampleStore 999).1 rfl,
   ((get_episode_found_and_not_found sampleStore 1).2 ⟨1, "1/11/99", 1⟩ rfl).1,
   ((get_episode_found_and_not_found sampleStore 1).2 ⟨1, "1/11/99", 1⟩ rfl).2.1⟩

/-- C7: a present, non-integer rating always yields the message
`Rating must be an integer`, the request fails with 400 carrying the full
error list, and the store is left untouched (nothing is persisted). -/
theorem create_appearance_rating_type_error (s : Store) (d : ReqBody) (v : PyVal)
    (hv : d.rating = some v) (hne : v.isInt = false) :
    "Rating must be an integer" ∈ validationErrors s d ∧
    create_appearance s (some d) =
      HResult.ok s
        ⟨400, Json.obj [("errors", Json.arr ((validationErrors s d).map Json.str))]⟩ := by
  cases v with
  | int n => simp [PyVal.isInt] at hne
  | str t =>
    have hmem : "Rating must be an integer" ∈ validationErrors s d := by
      simp [validationErrors, ratingErrors, hv]
    have hne2 : validationErrors s d ≠ [] := by
      intro h
      rw [h] at hmem
      exact List.not_mem_nil _ hmem
    exact ⟨hmem, create_appearance_of_errors s d hne2⟩

/-- Closed instance of the rating-type theorem: a string-valued rating on
the seeded store is answered 400 with the type message and no write. -/
theorem create_appearance_rating_type_error_witness :
    "Rating must be an integer" ∈
      validationErrors sampleStore ⟨some (PyVal.str "five"), some 1, some 1⟩ ∧
    create_appearance sampleStore (some ⟨some (PyVal.str "five"), some 1, some 1⟩) =
      HResult.ok sampleStore
        ⟨400, Json.obj [("errors", Json.arr [Json.str "Rating must be an integer"])]⟩ :=
  ⟨(create_appearance_rating_type_error sampleStore
      ⟨some (PyVal.str "five"), some 1, some 1⟩ (PyVal.str "five") rfl rfl).1,
   (create_appearance_rating_type_error sampleStore
      ⟨some (PyVal.str "five"), some 1, some 1⟩ (PyVal.str "five") rfl rfl).2⟩

/-- Lookups in the guests table ignore the appearances table: updating the
appearances does not change any guest lookup. -/
theorem getGuest_append (s : Store) (l : List Appearance) (i : Int) :
    Store.getGuest { s with appearances := l } i = s.getGuest i := rfl

/-- Lookups in the episodes table ignore the appearances table. -/
theorem getEpisode_append (s : Store) (l : List Appearance) (i : Int) :
    Store.getEpisode { s with appearances := l } i = s.getEpisode i := rfl

/-- The `guest` entry of a serialized appearance is the shallow dictionary
of the referenced guest row. -/
theorem to_dict_guest_entry {s : Store} {a : Appearance} {g : Guest}
    (hg : s.getGuest a.guest_id = some g) (ie : Bool) :
    (a.to_dict s true ie).getField "guest" = some g.to_dict_shallow := by
  cases ie <;> (simp only [Appearance.to_dict, hg]; rfl)

/-- The `episode` entry of a serialized appearance is the shallow dictionary
of the referenced episode row. -/
theorem to_dict_episode_entry {s : Store} {a : Appearance} {e : Episode}
    (he : s.getEpisode a.episode_id = some e) (ig : Bool) :
    (a.to_dict s ig true).getField "episode" = some e.to_dict_shallow := by
  cases ig <;> (simp only [Appearance.to_dict, he]; rfl)

/-- C1: validation of POST /appearances is total and exclusive: each of the
listed violations contributes its message to the collected error list; a
non-empty list yields a single 400 response carrying every message with the
store untouched; and any success is a 201 produced only when the list is
empty, so a persisted row and an error list never coexist. -/
theorem create_appearance_validation_exhaustive (s : Store) (d : ReqBody) :
    (d.rating = none → "Rating is required" ∈ validationErrors s d) ∧
    (∀ t, d.rating = some (PyVal.str t) →
      "Rating must be an integer" ∈ validationErrors s d) ∧
    (∀ n, d.rating = some (PyVal.int n) → (n < 1 ∨ 5 < n) →
      "Rating must be between 1 and 5 (inclusive)" ∈ validationErrors s d) ∧
    (d.episode_id = none → "Episode ID is required" ∈ validationErrors s d) ∧
    (∀ i, d.episode_id = some i → s.getEpisode i = none →
      "Episode not found" ∈ validationErrors s d) ∧
    (d.guest_id = none → "Guest ID is required" ∈ validationErrors s d) ∧
    (∀ i, d.guest_id = some i → s.getGuest i = none →
      "Guest not found" ∈ validationErrors s d) ∧
    (validationErrors s d ≠ [] →
      create_appearance s (some d) =
        HResult.ok s
          ⟨400, Json.obj [("errors", Json.arr ((validationErrors s d).map Json.str))]⟩) ∧
    (∀ s1 r, create_appearance s (some d) = HResult.ok s1 r →
      (r.status = 400 ∧ s1 = s ∧ s1.appearances = s.appearances) ∨
      (r.status = 201 ∧ validationErrors s d = [])) := by
  refine ⟨?_, ?_, ?_, ?_, ?_, ?_, ?_, ?_, ?_⟩
  · intro h
    simp [validationErrors, ratingErrors, h]
  · intro t h
    simp [validationErrors, ratingErrors, h]
  · intro n h hb
    have hc : (n < 1 || n > 5) = true := by
      simp only [Bool.or_eq_true, decide_eq_true_eq]
      omega
    simp [validationErrors, ratingErrors, h, hc]
  · intro h
    simp [validationErrors, episodeErrors, h]
  · intro i h hl
    simp [validationErrors, episodeErrors, h, hl]
  · intro h
    simp [validationErrors, guestErrors, h]
  · intro i h hl
    simp [validationErrors, guestErrors, h, hl]
  · intro h
    exact create_appearance_of_errors s d h
  · intro s1 r h
    by_cases he : validationErrors s d = []
    · obtain ⟨n, ei, gi, e, g, hdr, h1, h5, hde, hfe, hdg, hfg⟩ :=
        validationErrors_nil_shape s d he
      rw [create_appearance_of_valid s d n ei gi e g hdr h1 h5 hde hfe hdg hfg] at h
      injection h with hs1 hr2
      right
      exact ⟨by rw [← hr2], he⟩
    · rw [create_appearance_of_errors s d he] at h
      injection h with hs1 hr2
      left
      exact ⟨by rw [← hr2], hs1.symm, by rw [← hs1]⟩

/-- Closed instance of the validation theorem: a body missing the rating
and the guest id and naming an unknown episode collects all three messages
and is answered by a single 400 with no write. -/
theorem create_appearance_validation_exhaustive_witness :
    ("Rating is required" ∈ validationErrors sampleStore ⟨none, some 999, none⟩) ∧
    ("Episode not found" ∈ validationErrors sampleStore ⟨none, some 999, none⟩) ∧
    ("Guest ID is required" ∈ validationErrors sampleStore ⟨none, some 999, none⟩) ∧
    create_appearance sampleStore (some ⟨none, some 999, none⟩) =
      HResult.ok sampleStore
        ⟨400, Json.obj [("errors",
          Json.arr [Json.str "Rating is required", Json.str "Episode not found",
                    Json.str "Guest ID is required"])]⟩ :=
  ⟨(create_appearance_validation_exhaustive sampleStore ⟨none, some 999, none⟩).1 rfl,
   (create_appearance_validation_exhaustive sampleStore
      ⟨none, some 999, none⟩).2.2.2.2.1 999 rfl rfl,
   (create_appearance_validation_exhaustive sampleStore
      ⟨none, some 999, none⟩).2.2.2.2.2.1 rfl,
   (create_appearance_validation_exhaustive sampleStore
      ⟨none, some 999, none⟩).2.2.2.2.2.2.2.1 (by decide)⟩

/-- C2: the rating bound is an invariant: a valid store stays valid through
`create_appearance`; the `@validates` hook rejects any out-of-range value
immediately at assignment, so constructing such an appearance fails before
anything is persisted; and a request with rating 0 or 6 is answered 400
with the range message and no write. -/
theorem appearance_rating_invariant (s : Store) (data : Option ReqBody)
    (hs : s.ratingsValid) :
    (∀ s1 r, create_appearance s data = HResult.ok s1 r → s1.ratingsValid) ∧
    (∀ n : Int, n < 1 ∨ 5 < n →
      Appearance.validate_rating n =
        Except.error "Rating must be between 1 and 5 (inclusive)" ∧
      ∀ i g e, Appearance.mk_validated i n g e =
        Except.error "Rating must be between 1 and 5 (inclusive)") ∧
    (∀ d : ReqBody, d.rating = some (PyVal.int 0) ∨ d.rating = some (PyVal.int 6) →
      "Rating must be between 1 and 5 (inclusive)" ∈ validationErrors s d ∧
      create_appearance s (some d) =
        HResult.ok s
          ⟨400, Json.obj [("errors", Json.arr ((validationErrors s d).map Json.str))]⟩) := by
  refine ⟨?_, ?_, ?_⟩
  · intro s1 r h
    cases data with
    | none => exact HResult.noConfusion h
    | some d =>
      by_cases he : validationErrors s d = []
      · obtain ⟨n, ei, gi, e, g, hdr, h1, h5, hde, hfe, hdg, hfg⟩ :=
          validationErrors_nil_shape s d he
        rw [create_appearance_of_valid s d n ei gi e g hdr h1 h5 hde hfe hdg hfg] at h
        injection h with hs1 hr2
        rw [← hs1]
        intro a ha
        simp only [List.mem_append, List.mem_singleton] at ha
        rcases ha with ha | ha
        · exact hs a ha
        · subst ha
          exact ⟨h1, h5⟩
      · rw [create_appearance_of_errors s d he] at h
        injection h with hs1 hr2
        rw [← hs1]
        exact hs
  · intro n hb
    have hc : (n < 1 || n > 5) = true := by
      simp only [Bool.or_eq_true, decide_eq_true_eq]
      omega
    have hv : Appearance.validate_rating n =
        Except.error "Rating must be between 1 and 5 (inclusive)" := by
      unfold Appearance.validate_rating
      rw [if_pos hc]
    refine ⟨hv, ?_⟩
    intro i g e
    unfold Appearance.mk_validated
    rw [hv]
  · intro d hd
    have hmem : "Rating must be between 1 and 5 (inclusive)" ∈ validationErrors s d := by
      rcases hd with hd | hd <;> simp [validationErrors, ratingErrors, hd]
    have hne : validationErrors s d ≠ [] := by
      intro h0
      rw [h0] at hmem
      exact List.not_mem_nil _ hmem
    exact ⟨hmem, create_appearance_of_errors s d hne⟩

/-- Closed instance of the rating-invariant theorem: the seeded store is
valid, and a request with rating 0 on it is answered 400 with the range
message and the store unchanged. -/
theorem appearance_rating_invariant_witness :
    Store.ratingsValid sampleStore ∧
    ("Rating must be between 1 and 5 (inclusive)" ∈
      validationErrors sampleStore ⟨some (PyVal.int 0), some 1, some 1⟩) ∧
    create_appearance sampleStore (some ⟨some (PyVal.int 0), some 1, some 1⟩) =
      HResult.ok sampleStore
        ⟨400, Json.obj [("errors",
          Json.arr [Json.str "Rating must be between 1 and 5 (inclusive)"])]⟩ := by
  have hv : Store.ratingsValid sampleStore := by
    intro a ha
    fin_cases ha <;> exact ⟨by decide, by decide⟩
  exact ⟨hv,
    ((appearance_rating_invariant sampleStore none hv).2.2
       ⟨some (PyVal.int 0), some 1, some 1⟩ (Or.inl rfl)).1,
    ((appearance_rating_invariant sampleStore none hv).2.2
       ⟨some (PyVal.int 0), some 1, some 1⟩ (Or.inl rfl)).2⟩

/-- C3: a request passing every validation persists exactly one new row and
answers 201 with that row serialized with both relations nested: the nested
guest carries the referenced name, the nested episode the referenced date,
and neither nested dictionary has an `appearances` key. -/
theorem create_appearance_success_nested (s : Store) (d : ReqBody)
    (n ei gi : Int) (e : Episode) (g : Guest)
    (hr : d.rating = some (PyVal.int n)) (h1 : 1 ≤ n) (h5 : n ≤ 5)
    (hei : d.episode_id = some ei) (hfe : s.getEpisode ei = some e)
    (hgi : d.guest_id = some gi) (hfg : s.getGuest gi = some g) :
    ∃ a s1,
      create_appearance s (some d) = HResult.ok s1 ⟨201, a.to_dict s1 true true⟩ ∧
      s1.appearances = s.appearances ++ [a] ∧
      s1.episodes = s.episodes ∧ s1.guests = s.guests ∧
      a.rating = n ∧ a.episode_id = ei ∧ a.guest_id = gi ∧
      (a.to_dict s1 true true).getField "guest" = some g.to_dict_shallow ∧
      (a.to_dict s1 true true).getField "episode" = some e.to_dict_shallow ∧
      g.to_dict_shallow.getField "name" = some (Json.str g.name) ∧
      e.to_dict_shallow.getField "date" = some (Json.str e.date) ∧
      g.to_dict_shallow.getField "appearances" = none ∧
      e.to_dict_shallow.getField "appearances" = none := by
  refine ⟨⟨s.nextAppearanceId, n, gi, ei⟩,
    { s with appearances := s.appearances ++ [⟨s.nextAppearanceId, n, gi, ei⟩] },
    create_appearance_of_valid s d n ei gi e g hr h1 h5 hei hfe hgi hfg,
    rfl, rfl, rfl, rfl, rfl, rfl, ?_, ?_, rfl, rfl, rfl, rfl⟩
  · exact to_dict_guest_entry
      (show Store.getGuest _ _ = some g from hfg) true
  · exact to_dict_episode_entry
      (show Store.getEpisode _ _ = some e from hfe) true

/-- Closed instance of the success theorem: rating 5, episode 2, guest 3 on
the seeded store creates a row answered 201 with both relations nested. -/
theorem create_appearance_success_nested_witness :
    ∃ (a : Appearance) (s1 : Store),
      create_appearance sampleStore (some ⟨some (PyVal.int 5), some 2, some 3⟩) =
        HResult.ok s1 ⟨201, a.to_dict s1 true true⟩ ∧
      (a.to_dict s1 true true).getField "guest" =
        some (Guest.to_dict_shallow ⟨3, "Tracey Ullman", "television actress"⟩) ∧
      (a.to_dict s1 true true).getField "episode" =
        some (Episode.to_dict_shallow ⟨2, "1/12/99", 2⟩) := by
  obtain ⟨a, s1, hc, _, _, _, _, _, _, hgf, hef, _, _, _, _⟩ :=
    create_appearance_success_nested sampleStore ⟨some (PyVal.int 5), some 2, some 3⟩
      5 2 3 ⟨2, "1/12/99", 2⟩ ⟨3, "Tracey Ullman", "television actress"⟩
      rfl (by decide) (by decide) rfl rfl rfl rfl
  exact ⟨a, s1, hc, hgf, hef⟩

end LateShow
